import Mathlib

/-!
# LifeBuddy Apple Health ingestion pipeline — verification development

Shallow embedding of the ingestion/ETL pipeline of the LifeBuddy repository
(`app/ingestion/apple_health.py` and the sleep aggregation of
`app/core/health_data_service.py`), together with theorems settling the
spec's testable properties.

Modelling conventions:
* Python `datetime` instants are integers (seconds); timezone offsets are
  integers (minutes).  An aware datetime is the pair (UTC instant, offset) —
  exactly CPython's model, where the naive local reading is `utc + offset`.
* Python `float` values are modelled exactly: an inductive `PyFloat` of
  rationals plus infinities and NaN.  All concrete values appearing in the
  claims are exactly representable, so no rounding of the binary format is
  involved.
* SQLite `REAL` arithmetic is modelled over `ℚ` (exact); `DATE(ts)` over a
  stored text timestamp follows the SQLite documentation: a timestamp
  carrying a timezone suffix is converted to UTC before the calendar date is
  taken, a suffix-free timestamp is read as-is.  Calendar dates are modelled
  as day numbers (`Int`), i.e. `fdiv` of the second count by 86400; the
  bijection day-number ↔ `YYYY-MM-DD` is irrelevant to every claim.
* String-level code (`datetime.fromisoformat` / `isoformat`, `float()`
  literals, the `UTC±H[:MM]` regex) is modelled on ASCII strings over the
  grammar the export and the code emit.
-/

/-! ## Python `datetime` scalar model

`AwareDT` is a timezone-aware datetime: CPython represents it as naive
calendar fields plus a `tzinfo`; semantically it is the pair of the UTC
instant it denotes and its offset.  `localNaiveSec` recovers the naive local
reading (what `isoformat` prints before the offset suffix). -/

structure AwareDT where
  utcSec : Int
  offMin : Int
deriving DecidableEq, Repr

/-- The naive local reading of an aware datetime (seconds). -/
def AwareDT.localNaiveSec (d : AwareDT) : Int :=
  d.utcSec + d.offMin * 60

/-- `dt.replace(tzinfo=timezone(offset))`: reinterpret a naive datetime
(`naiveSec`) as being in the given offset, without moving the clock hands.
Mirrors `apple_health.py` line 507. -/
def replaceTzinfo (naiveSec : Int) (offMin : Int) : AwareDT :=
  ⟨naiveSec - offMin * 60, offMin⟩

/-- `dt.astimezone(tz)`: same instant, re-expressed at a new offset.
Mirrors `apple_health.py` line 510. -/
def astimezone (d : AwareDT) (offMin : Int) : AwareDT :=
  ⟨d.utcSec, offMin⟩

/-- Branch 1 of `AppleHealthParser._parse_date` (lines 488–512), for a source
string `"<naive datetime> ±HHMM"`: attach the embedded source offset to the
naive datetime, then convert the instant into the user's resolved local
timezone.  The stored text is the `isoformat` of the result, i.e. its naive
local fields plus the user offset suffix. -/
def parse_date_aware (userOffMin : Int) (naiveSec : Int) (srcOffMin : Int) : AwareDT :=
  astimezone (replaceTzinfo naiveSec srcOffMin) userOffMin

/-- The stored timestamp denotes the instant of the source timestamp:
`_parse_date` never moves the instant, only the offset it is expressed in. -/
theorem parse_date_aware_utcSec (u n s : Int) :
    (parse_date_aware u n s).utcSec = n - s * 60 := rfl

/-- C3: For every source timestamp of the form `<naive datetime> ±HHMM`
(naive reading `n` seconds, source offset `s` minutes), re-interpreting the
stored local-timezone result (`localNaiveSec` of the parse, i.e. the naive
fields that are stored) in the run's resolved timezone `u` and converting
back to the source offset recovers the original instant — the round-trip
invariant of `_parse_date`. -/
theorem parse_date_roundtrip (u n s : Int) :
    astimezone (replaceTzinfo (parse_date_aware u n s).localNaiveSec u) s
      = replaceTzinfo n s := by
  simp [parse_date_aware, astimezone, replaceTzinfo, AwareDT.localNaiveSec]

/-! ## Character and digit utilities -/

/-- Decimal digit of a character, `none` for non-digits. -/
def digit? (c : Char) : Option Nat :=
  if '0' ≤ c ∧ c ≤ '9' then some (c.toNat - 48) else none

/-- Character of a decimal digit (only ever applied to `n < 10`). -/
def digChar (n : Nat) : Char :=
  match n with
  | 0 => '0' | 1 => '1' | 2 => '2' | 3 => '3' | 4 => '4'
  | 5 => '5' | 6 => '6' | 7 => '7' | 8 => '8' | 9 => '9'
  | _ => '0'

theorem digit?_digChar {n : Nat} (h : n < 10) : digit? (digChar n) = some n := by
  interval_cases n <;> rfl

theorem digChar_not_sign (n : Nat) :
    digChar n ≠ ' ' ∧ digChar n ≠ '-' ∧ digChar n ≠ '+' := by
  unfold digChar
  split <;> exact ⟨by decide, by decide, by decide⟩

/-- Two zero-padded decimal digits (Python `%02d` for `0 ≤ n < 100`). -/
def pad2 (n : Nat) : List Char := [digChar (n / 10), digChar (n % 10)]

/-- Four zero-padded decimal digits (Python `%04d` for `0 ≤ n < 10000`). -/
def pad4 (n : Nat) : List Char :=
  [digChar (n / 1000), digChar (n / 100 % 10), digChar (n / 10 % 10), digChar (n % 10)]

/-- Parse two decimal digit characters. -/
def dig2 (a b : Char) : Option Nat :=
  match digit? a, digit? b with
  | some x, some y => some (10 * x + y)
  | _, _ => none

/-- Parse four decimal digit characters. -/
def dig4 (a b c d : Char) : Option Nat :=
  match digit? a, digit? b, digit? c, digit? d with
  | some x, some y, some z, some w => some (1000 * x + 100 * y + 10 * z + w)
  | _, _, _, _ => none

theorem dig2_pad2 {n : Nat} (h : n < 100) : dig2 (digChar (n / 10)) (digChar (n % 10)) = some n := by
  rw [dig2, digit?_digChar (by omega), digit?_digChar (by omega)]
  simp; omega

theorem dig4_pad4 {n : Nat} (h : n < 10000) :
    dig4 (digChar (n / 1000)) (digChar (n / 100 % 10)) (digChar (n / 10 % 10)) (digChar (n % 10))
      = some n := by
  rw [dig4, digit?_digChar (by omega), digit?_digChar (by omega), digit?_digChar (by omega),
    digit?_digChar (by omega)]
  simp; omega

/-! ## Naive datetimes and the ISO grammar of the export

`NaiveDT` carries the calendar fields of a Python naive `datetime` (second
precision — the export carries no fractional seconds). -/

structure NaiveDT where
  year : Nat
  month : Nat
  day : Nat
  hour : Nat
  minute : Nat
  second : Nat
deriving DecidableEq, Repr

/-- Days in a month, with the Gregorian leap rule (as `datetime` validates). -/
def daysInMonth (y m : Nat) : Nat :=
  if m = 2 then
    if y % 4 = 0 ∧ (y % 100 ≠ 0 ∨ y % 400 = 0) then 29 else 28
  else if m = 4 ∨ m = 6 ∨ m = 9 ∨ m = 11 then 30
  else 31

theorem daysInMonth_le (y m : Nat) : daysInMonth y m ≤ 31 := by
  unfold daysInMonth
  repeat' split
  all_goals omega

/-- The validity constraints `datetime` enforces on its fields. -/
def NaiveDT.Valid (d : NaiveDT) : Prop :=
  1 ≤ d.year ∧ d.year ≤ 9999 ∧ 1 ≤ d.month ∧ d.month ≤ 12 ∧
  1 ≤ d.day ∧ d.day ≤ daysInMonth d.year d.month ∧
  d.hour ≤ 23 ∧ d.minute ≤ 59 ∧ d.second ≤ 59

instance (d : NaiveDT) : Decidable d.Valid := by
  unfold NaiveDT.Valid; infer_instance

/-- Serialize a naive datetime as `YYYY-MM-DD<sep>HH:MM:SS` — the datetime
grammar the Apple Health export emits (`sep = ' '`) and `isoformat` prints
(`sep = 'T'`). -/
def serializeSep (d : NaiveDT) (sep : Char) : String :=
  ⟨pad4 d.year ++ '-' :: pad2 d.month ++ '-' :: pad2 d.day ++
    sep :: pad2 d.hour ++ ':' :: pad2 d.minute ++ ':' :: pad2 d.second⟩

/-- `datetime.isoformat()` of a naive datetime: canonical form, `'T'`
separator, seconds always printed (microseconds are zero throughout). -/
def NaiveDT.isoformat (d : NaiveDT) : String := serializeSep d 'T'

/-- Time-of-day part of `datetime.fromisoformat`: `HH:MM:SS` or `HH:MM`
(the forms relevant to this export; fractional seconds do not occur).
Range checks are the ones `datetime` enforces. -/
def fromisoTime (cs : List Char) : Option (Nat × Nat × Nat) :=
  match cs with
  | [h1, h2, c1, m1, m2, c2, s1, s2] =>
    if c1 = ':' ∧ c2 = ':' then
      match dig2 h1 h2, dig2 m1 m2, dig2 s1 s2 with
      | some h, some m, some s =>
        if h ≤ 23 ∧ m ≤ 59 ∧ s ≤ 59 then some (h, m, s) else none
      | _, _, _ => none
    else none
  | [h1, h2, c1, m1, m2] =>
    if c1 = ':' then
      match dig2 h1 h2, dig2 m1 m2 with
      | some h, some m => if h ≤ 23 ∧ m ≤ 59 then some (h, m, 0) else none
      | _, _ => none
    else none
  | _ => none

/-- `datetime.fromisoformat` restricted to the grammar reaching `_parse_date`:
`YYYY-MM-DD` alone, or `YYYY-MM-DD<sep>HH:MM[:SS]` with an arbitrary single
separator character (CPython parses the date positionally from the first ten
characters).  Field validity is checked as `datetime` does; anything else is
a `ValueError`, i.e. `none`. -/
def fromisoformat (s : String) : Option NaiveDT :=
  match s.data with
  | y1 :: y2 :: y3 :: y4 :: c1 :: m1 :: m2 :: c2 :: d1 :: d2 :: rest =>
    if c1 = '-' ∧ c2 = '-' then
      match dig4 y1 y2 y3 y4, dig2 m1 m2, dig2 d1 d2 with
      | some y, some m, some d =>
        if 1 ≤ y ∧ y ≤ 9999 ∧ 1 ≤ m ∧ m ≤ 12 ∧ 1 ≤ d ∧ d ≤ daysInMonth y m then
          match rest with
          | [] => some ⟨y, m, d, 0, 0, 0⟩
          | _sep :: tcs =>
            match fromisoTime tcs with
            | some (h, mi, sec) => some ⟨y, m, d, h, mi, sec⟩
            | none => none
        else none
      | _, _, _ => none
    else none
  | _ => none

/-- Parsing inverts serialization on valid datetimes (for any separator
character, as in CPython's positional parse). -/
theorem fromisoformat_serializeSep (d : NaiveDT) (sep : Char) (h : d.Valid) :
    fromisoformat (serializeSep d sep) = some d := by
  obtain ⟨y, m, dd, hh, mi, ss⟩ := d
  dsimp only [NaiveDT.Valid] at h
  obtain ⟨hy1, hy2, hm1, hm2, hd1, hd2, hh1, hmi1, hss1⟩ := h
  simp only [serializeSep, pad4, pad2, fromisoformat, List.cons_append, List.nil_append]
  rw [dig4_pad4 (by omega), dig2_pad2 (by omega),
    dig2_pad2 (by have := daysInMonth_le y m; omega)]
  simp only [fromisoTime]
  rw [dig2_pad2 (by omega), dig2_pad2 (by omega), dig2_pad2 (by omega)]
  simp [hy1, hy2, hm1, hm2, hd1, hd2, hh1, hmi1, hss1]

/-! ## Civil-calendar ↔ day-number conversion

Standard Gregorian conversions (days counted from 1970-01-01), used to give
the string-level `_parse_date` its timezone arithmetic.  They are only
evaluated, never reasoned about. -/

/-- Day number of a civil date (1970-01-01 = day 0). -/
def daysFromCivil (y m d : Nat) : Int :=
  let y' : Int := (y : Int) - (if m ≤ 2 then 1 else 0)
  let era : Int := y'.fdiv 400
  let yoe : Nat := (y' - era * 400).toNat
  let mp : Nat := if m > 2 then m - 3 else m + 9
  let doy : Nat := (153 * mp + 2) / 5 + d - 1
  let doe : Nat := yoe * 365 + yoe / 4 - yoe / 100 + doy
  era * 146097 + (doe : Int) - 719468

/-- Civil date of a day number (1970-01-01 = day 0). -/
def civilFromDays (z0 : Int) : Nat × Nat × Nat :=
  let z := z0 + 719468
  let era := z.fdiv 146097
  let doe : Nat := (z - era * 146097).toNat
  let yoe : Nat := (doe - doe / 1460 + doe / 36524 - doe / 146096) / 365
  let y : Int := (yoe : Int) + era * 400
  let doy : Nat := doe - (365 * yoe + yoe / 4 - yoe / 100)
  let mp : Nat := (5 * doy + 2) / 153
  let d : Nat := doy - (153 * mp + 2) / 5 + 1
  let m : Nat := if mp < 10 then mp + 3 else mp - 9
  ((if m ≤ 2 then y + 1 else y).toNat, m, d)

/-- Seconds-since-epoch of the naive reading of a datetime. -/
def NaiveDT.toSec (dt : NaiveDT) : Int :=
  daysFromCivil dt.year dt.month dt.day * 86400 +
    ((dt.hour * 3600 + dt.minute * 60 + dt.second : Nat) : Int)

/-- Naive datetime of a second count. -/
def naiveOfSec (sec : Int) : NaiveDT :=
  let day := sec.fdiv 86400
  let sod : Nat := (sec - day * 86400).toNat
  let c := civilFromDays day
  ⟨c.1, c.2.1, c.2.2, sod / 3600, sod / 60 % 60, sod % 60⟩

/-- The `±HH:MM` suffix `datetime.isoformat` prints for an aware datetime. -/
def offsetSuffix (offMin : Int) : String :=
  ⟨(if offMin < 0 then '-' else '+') ::
    (pad2 (offMin.natAbs / 60) ++ ':' :: pad2 (offMin.natAbs % 60))⟩

/-- `isoformat()` of an aware datetime: naive local fields, `'T'` separator,
then the offset suffix.  This is the exact text `_parse_date` stores. -/
def AwareDT.isoformat (d : AwareDT) : String :=
  (naiveOfSec d.localNaiveSec).isoformat ++ offsetSuffix d.offMin

/-! ## The string-level `_parse_date` -/

/-- The test `' -' in date_str or ' +' in date_str` of line 488. -/
def hasOffsetMarker : List Char → Bool
  | [] => false
  | [_] => false
  | a :: b :: rest =>
    if a = ' ' ∧ (b = '-' ∨ b = '+') then true else hasOffsetMarker (b :: rest)

/-- `date_str.rsplit(' ', 1)`: split at the last space, `none` when the
string has no space. -/
def rsplitLastSpace : List Char → Option (List Char × List Char)
  | [] => none
  | c :: rest =>
    match rsplitLastSpace rest with
    | some (l, r) => some (c :: l, r)
    | none => if c = ' ' then some ([], rest) else none

/-- Python `int()` on a slice of the offset suffix: digits only (the signed /
whitespace forms never occur in an offset slice), `ValueError` on anything
else, including the empty slice. -/
def parseDigitsInt (cs : List Char) : Option Nat :=
  match cs with
  | [] => none
  | _ =>
    cs.foldl
      (fun acc c =>
        match acc, digit? c with
        | some a, some d => some (10 * a + d)
        | _, _ => none)
      (some 0)

/-- `AppleHealthParser._parse_date` (lines 476–523), at string level.

* empty attribute → `None` (line 484);
* a `' -'`/`' +'` marker → split at the last space; parse the datetime part;
  if the last token starts with a sign, read `tz_part[1:3]` / `tz_part[3:5]`
  as hours/minutes, attach that source offset, convert the instant to the
  user's timezone and store its `isoformat` (offset suffix included);
  if the last token has no sign, store the datetime part's `isoformat`;
* no marker → parse and store `isoformat` (canonical, `'T'`-separated);
* any parse failure (`except` at line 521) → the original string unchanged. -/
def parse_date_str (userOffMin : Int) (s : String) : Option String :=
  if s = "" then none
  else if hasOffsetMarker s.data then
    match rsplitLastSpace s.data with
    | none => some s
    | some (dpart, tzpart) =>
      match fromisoformat ⟨dpart⟩ with
      | none => some s
      | some dt =>
        match tzpart with
        | c :: rest =>
          if c = '-' ∨ c = '+' then
            match parseDigitsInt (rest.take 2), parseDigitsInt ((rest.drop 2).take 2) with
            | some hrs, some mins =>
              let sign : Int := if c = '-' then -1 else 1
              let tzOff : Int := sign * (hrs : Int) * 60 + sign * (mins : Int)
              some (astimezone (replaceTzinfo dt.toSec tzOff) userOffMin).isoformat
            | _, _ => some s
          else some dt.isoformat
        | [] => some dt.isoformat
  else
    match fromisoformat s with
    | none => some s
    | some dt => some dt.isoformat

theorem serializeSep_ne_empty (d : NaiveDT) (sep : Char) : serializeSep d sep ≠ "" := by
  simp [serializeSep, pad4, String.ext_iff]

/-- C6 counterexample: the export-style timestamp `"2023-09-11 20:09:44"`
has no offset suffix, yet `_parse_date` does not return it unchanged — the
space separator is canonicalized to `'T'` by `isoformat`. -/
theorem parse_date_no_offset_not_unchanged :
    hasOffsetMarker "2023-09-11 20:09:44".data = false ∧
    parse_date_str (-420) "2023-09-11 20:09:44" ≠ some "2023-09-11 20:09:44" ∧
    parse_date_str (-420) "2023-09-11 20:09:44" = some "2023-09-11T20:09:44" := by
  refine ⟨by decide, by decide, by decide⟩

/-- C6 (amended): a parseable timestamp string with no offset suffix is
assumed already local and is returned with the same datetime fields,
re-serialized in canonical ISO form (`'T'` separator) — character-for-
character identical to the input exactly when the input already uses the
canonical separator. -/
theorem parse_date_no_offset_canonicalized (u : Int) (dt : NaiveDT) (sep : Char)
    (hv : dt.Valid) (hsep : sep = ' ' ∨ sep = 'T')
    (hno : hasOffsetMarker (serializeSep dt sep).data = false) :
    parse_date_str u (serializeSep dt sep) = some dt.isoformat := by
  rw [parse_date_str, if_neg (serializeSep_ne_empty dt sep), if_neg (by simp [hno])]
  rw [fromisoformat_serializeSep dt sep hv]

theorem parse_date_no_offset_canonicalized_witness :
    parse_date_str (-420) (serializeSep ⟨2023, 9, 11, 20, 9, 44⟩ ' ')
      = some (NaiveDT.isoformat ⟨2023, 9, 11, 20, 9, 44⟩) :=
  parse_date_no_offset_canonicalized (-420) ⟨2023, 9, 11, 20, 9, 44⟩ ' '
    (by decide) (Or.inl rfl) (by decide)

/-! ## TimezoneResolver (`get_user_timezone`, lines 23–82)

The `TZ` environment override `UTC±H[:MM]` is parsed by the regex
`UTC([+-])(\d{1,2})(?::(\d{2}))?` (`re.match`: a prefix match; a failing
optional minutes group yields minutes 0), and the resolved offset string is
formatted from `total_minutes` by `total_minutes // 60` (Python floor
division) and `abs(total_minutes % 60)`. -/

/-- Hours part `(\d{1,2})`, greedy: one digit, or two if available. -/
def tzHoursPart : List Char → Option (Nat × List Char)
  | [] => none
  | a :: rest =>
    match digit? a, rest with
    | none, _ => none
    | some x, [] => some (x, [])
    | some x, b :: rest2 =>
      match digit? b with
      | some y => some (10 * x + y, rest2)
      | none => some (x, b :: rest2)

/-- Optional minutes group `(?::(\d{2}))?`: 0 when the group does not match
(the code maps an absent group to minutes 0). -/
def tzMinutesPart : List Char → Nat
  | c :: a :: b :: _ =>
    if c = ':' then
      match dig2 a b with
      | some v => v
      | none => 0
    else 0
  | _ => 0

/-- Total offset minutes resolved from a `TZ` override value (the signed
`total_minutes` of lines 38–45); `none` when the regex does not match and
the code falls back to the host timezone. -/
def parse_tz_env (s : String) : Option Int :=
  match s.data with
  | 'U' :: 'T' :: 'C' :: c :: rest =>
    if c = '+' ∨ c = '-' then
      match tzHoursPart rest with
      | some (hours, rest2) =>
        let total : Int := (hours : Int) * 60 + tzMinutesPart rest2
        some (if c = '-' then -total else total)
      | none => none
    else none
  | _ => none

/-- Offset-string formatting of lines 50–56: `offset_hours = total // 60`
(floor), `offset_mins = abs(total % 60)`, printed `f"{h:+03d}{m:02d}"`. -/
def format_tz_offset (totalMinutes : Int) : String :=
  let offset_hours := totalMinutes.fdiv 60
  let offset_mins : Nat := (totalMinutes % 60).natAbs
  let sign : Char := if offset_hours < 0 then '-' else '+'
  if offset_mins > 0 then ⟨sign :: (pad2 offset_hours.natAbs ++ pad2 offset_mins)⟩
  else ⟨sign :: (pad2 offset_hours.natAbs ++ ['0', '0'])⟩

/-- The resolved `TimezoneSetting.offset` string for a `TZ` override. -/
def resolve_tz_offset_str (s : String) : Option String :=
  (parse_tz_env s).map format_tz_offset

/-- The `±HHMM` convention by which the repository itself reads offset
strings back (`HealthDataService._get_user_current_date`, lines 118–122:
length-5 check, sign, `int(s[1:3])` hours, `int(s[3:5])` minutes,
`sign * (hours * 60 + minutes)`). -/
def parse_hhmm (s : String) : Option Int :=
  match s.data with
  | [c, h1, h2, m1, m2] =>
    if c = '+' ∨ c = '-' then
      match dig2 h1 h2, dig2 m1 m2 with
      | some h, some m => some ((if c = '+' then 1 else -1) * ((h : Int) * 60 + m))
      | _, _ => none
    else none
  | _ => none

/-- C5: the override `UTC-5:30` resolves to offset −330 minutes, but the
formatted offset string is `"-0630"` (floor division decomposes −330 as
−6 h +30 min); read back under the repository's own `±HHMM` convention it
denotes −390 minutes, and re-formatting −390 yields `"-0730"` — the
parse→format round-trip changes the string.  (For comparison, the correct
string for −330 would be `"-0530"`.) -/
theorem tz_offset_roundtrip_failing :
    parse_tz_env "UTC-5:30" = some (-330) ∧
    resolve_tz_offset_str "UTC-5:30" = some "-0630" ∧
    parse_hhmm "-0630" = some (-390) ∧ (-390 : Int) ≠ -330 ∧
    format_tz_offset (-390) = "-0730" ∧ ("-0730" : String) ≠ "-0630" := by
  refine ⟨by decide, by decide, by decide, by decide, by decide, by decide⟩

/-! ## Python `float()` model

Exact model of CPython's `float(str)` on ASCII input: optional surrounding
whitespace, optional sign, `inf`/`infinity`/`nan` (case-insensitive) or a
decimal literal with optional fraction, optional exponent, and underscores
permitted between digits.  The value domain `PyFloat` keeps infinities and
NaN distinct; finite values are exact rationals. -/

inductive PyFloat where
  | finite (q : ℚ)
  | infinite (pos : Bool)
  | nan
deriving DecidableEq, Repr

def isPyWS (c : Char) : Bool :=
  c = ' ' || c = '\t' || c = '\n' || c = '\r' || c = '\x0b' || c = '\x0c'

def dropWSLeft : List Char → List Char
  | [] => []
  | c :: rest => if isPyWS c then dropWSLeft rest else c :: rest

def stripWS (cs : List Char) : List Char :=
  dropWSLeft ((dropWSLeft cs.reverse).reverse)

/-- Continue a digit run; single underscores between digits are skipped,
anything else ends the run.  Returns (value, digit count, rest). -/
def digitsURest (acc : Nat) (cnt : Nat) : List Char → (Nat × Nat × List Char)
  | [] => (acc, cnt, [])
  | c :: rest =>
    match digit? c with
    | some d => digitsURest (10 * acc + d) (cnt + 1) rest
    | none =>
      if c = '_' then
        match rest with
        | c2 :: rest2 =>
          match digit? c2 with
          | some d2 => digitsURest (10 * acc + d2) (cnt + 1) rest2
          | none => (acc, cnt, c :: rest)
        | [] => (acc, cnt, [c])
      else (acc, cnt, c :: rest)

/-- A `digitpart`: at least one digit, underscores between digits. -/
def digitsU : List Char → Option (Nat × Nat × List Char)
  | [] => none
  | c :: rest =>
    match digit? c with
    | some d => some (digitsURest d 1 rest)
    | none => none

/-- Mantissa: `digits [. [digits]]` or `. digits`. -/
def qpow10 : Nat → ℚ
  | 0 => 1
  | n + 1 => 10 * qpow10 n

def floatMantissa (cs : List Char) : Option (ℚ × List Char) :=
  match cs with
  | '.' :: rest =>
    match digitsU rest with
    | some (v, n, rest2) => some ((v : ℚ) / qpow10 n, rest2)
    | none => none
  | _ =>
    match digitsU cs with
    | none => none
    | some (ip, _, rest1) =>
      match rest1 with
      | '.' :: rest2 =>
        match digitsU rest2 with
        | some (fv, fn, rest3) => some ((ip : ℚ) + (fv : ℚ) / qpow10 fn, rest3)
        | none => some ((ip : ℚ), rest2)
      | _ => some ((ip : ℚ), rest1)

/-- Optional exponent: `e`/`E`, optional sign, digits; a bare `e` with no
digits is an error, absence contributes exponent 0. -/
def floatExponent (cs : List Char) : Option (Int × List Char) :=
  match cs with
  | [] => some (0, [])
  | c :: rest =>
    if c = 'e' ∨ c = 'E' then
      match rest with
      | [] => none
      | sgn :: rest2 =>
        if sgn = '+' ∨ sgn = '-' then
          match digitsU rest2 with
          | some (v, _, rest3) => some (if sgn = '-' then -(v : Int) else (v : Int), rest3)
          | none => none
        else
          match digitsU rest with
          | some (v, _, rest3) => some ((v : Int), rest3)
          | none => none
    else some (0, cs)

def pow10 (e : Int) : ℚ :=
  if 0 ≤ e then qpow10 e.toNat else 1 / qpow10 (-e).toNat

/-- CPython `float(s)` on ASCII strings. -/
def parseFloat (s : String) : Option PyFloat :=
  let l := stripWS s.data
  let signSplit : Bool × List Char :=
    match l with
    | '+' :: rest => (true, rest)
    | '-' :: rest => (false, rest)
    | _ => (true, l)
  let pos := signSplit.1
  let l2 := signSplit.2
  let low := l2.map Char.toLower
  if low = ['i', 'n', 'f'] ∨ low = ['i', 'n', 'f', 'i', 'n', 'i', 't', 'y'] then
    some (.infinite pos)
  else if low = ['n', 'a', 'n'] then some .nan
  else
    match floatMantissa l2 with
    | none => none
    | some (m, r1) =>
      match floatExponent r1 with
      | none => none
      | some (ex, r2) =>
        if r2 = [] then some (.finite ((if pos then m else -m) * pow10 ex)) else none

/-! ## `_parse_health_record` (lines 293–319)

A leaf `Record` element is modelled by its attributes; the timestamp
attributes are carried structurally as `(naive seconds, source offset
minutes)` pairs — the shape `"<naive datetime> ±HHMM"` that `_parse_date`
receives — with `none` for an absent attribute. -/

structure RecordElem where
  rtype : String
  valueAttr : Option String
  unitAttr : Option String
  startDate : Option (Int × Int)
  endDate : Option (Int × Int)
  creationDate : Option (Int × Int)
deriving DecidableEq, Repr

structure ParsedHealthRecord where
  record_type : String
  value : PyFloat
  unit : Option String
  start_date : Option AwareDT
  end_date : Option AwareDT
  creation_date : Option AwareDT
deriving DecidableEq, Repr

/-- `_parse_date` over an optional structural timestamp attribute (an absent
attribute is `None` in, `None` out — line 483). -/
def parseDateOpt (u : Int) : Option (Int × Int) → Option AwareDT
  | none => none
  | some (n, o) => some (parse_date_aware u n o)

/-- `AppleHealthParser._parse_health_record`: parse the three dates, then
`value_str = elem.get('value', '0')`; a `float()` failure drops the record
(`return None`), otherwise the record is emitted. -/
def parse_health_record (u : Int) (e : RecordElem) : Option ParsedHealthRecord :=
  let value_str := e.valueAttr.getD "0"
  match parseFloat value_str with
  | none => none
  | some v =>
    some ⟨e.rtype, v, e.unitAttr, parseDateOpt u e.startDate, parseDateOpt u e.endDate,
      parseDateOpt u e.creationDate⟩

/-- The record loop of `parse_xml` (lines 249–268): each target element
yields zero or one parsed record; `None` results are simply not appended. -/
def parseRecords (u : Int) (elems : List RecordElem) : List ParsedHealthRecord :=
  elems.filterMap (parse_health_record u)

/-- C8: a leaf sample whose `value` attribute is present but not parseable
as a number is dropped — no record is emitted for it — and processing of the
remaining elements is unaffected (the drop never aborts the run). -/
theorem invalid_value_record_dropped (u : Int) (e : RecordElem) (v : String)
    (hp : e.valueAttr = some v) (hbad : parseFloat v = none) :
    parse_health_record u e = none ∧
    ∀ before after : List RecordElem,
      parseRecords u (before ++ e :: after) = parseRecords u (before ++ after) := by
  have h1 : parse_health_record u e = none := by
    unfold parse_health_record
    rw [hp]
    simp only [Option.getD_some]
    rw [hbad]
  refine ⟨h1, fun before after => ?_⟩
  simp [parseRecords, h1]

theorem invalid_value_record_dropped_witness :
    parse_health_record (-420)
      ⟨"HKQuantityTypeIdentifierStepCount", some "12.5abc", some "count",
        some (72584, -420), none, none⟩ = none :=
  (invalid_value_record_dropped (-420) _ "12.5abc" rfl (by decide)).1

/-- `float("0")` is exactly zero. -/
theorem parseFloat_zero : parseFloat "0" = some (PyFloat.finite 0) := by
  have h1 : parseFloat "0" = some (.finite (((0 : Nat) : ℚ) * pow10 0)) := rfl
  rw [h1]
  norm_num [pow10, qpow10]

/-- C10: a leaf sample with no `value` attribute at all is retained, not
dropped: `elem.get('value', '0')` substitutes `"0"`, which parses, so the
record is stored with value 0.0. -/
theorem missing_value_record_kept (u : Int) (e : RecordElem) (h : e.valueAttr = none) :
    ∃ r, parse_health_record u e = some r ∧ r.value = PyFloat.finite 0 := by
  refine ⟨⟨e.rtype, PyFloat.finite 0, e.unitAttr, parseDateOpt u e.startDate,
    parseDateOpt u e.endDate, parseDateOpt u e.creationDate⟩, ?_, rfl⟩
  unfold parse_health_record
  rw [h]
  simp only [Option.getD_none, parseFloat_zero]

theorem missing_value_record_kept_witness :
    ∃ r, parse_health_record (-420)
      ⟨"HKQuantityTypeIdentifierAppleExerciseTime", none, some "min",
        some (72584, -420), none, none⟩ = some r ∧ r.value = PyFloat.finite 0 :=
  missing_value_record_kept (-420) _ rfl

/-! ## `_parse_workout` (lines 321–394)

A `Workout` container element: its scalar attributes plus the extracted
`(type, sum)` pairs of its nested `WorkoutStatistics` children (the
`child_stats` list of lines 352–358). -/

structure WorkoutElem where
  workoutActivityType : String
  startDate : Option (Int × Int)
  endDate : Option (Int × Int)
  durationAttr : String
  durationUnitAttr : String
  childStats : List (String × String)
deriving DecidableEq, Repr

structure WorkoutRow where
  workout_type : String
  start_date : Option AwareDT
  end_date : Option AwareDT
  duration_minutes : PyFloat
  total_energy_burned : PyFloat
  total_distance_km : PyFloat
deriving DecidableEq, Repr

/-- One step of the statistics loop (lines 361–377): a failing `float(sum)`
contributes 0; an active-energy child overwrites the energy total, a
walking/running or cycling distance child overwrites the distance total, and
every other statistic kind is ignored. -/
def statStep (acc : PyFloat × PyFloat) (st : String × String) : PyFloat × PyFloat :=
  let stat_value := (parseFloat st.2).getD (.finite 0)
  if st.1 = "HKQuantityTypeIdentifierActiveEnergyBurned" then (stat_value, acc.2)
  else if st.1 = "HKQuantityTypeIdentifierDistanceWalkingRunning" then (acc.1, stat_value)
  else if st.1 = "HKQuantityTypeIdentifierDistanceCycling" then (acc.1, stat_value)
  else acc

/-- `AppleHealthParser._parse_workout`: dates via `_parse_date`, duration via
a defensive `float` (failure → 0; the declared unit is not converted — both
arms of the `durationUnit` branch keep the value, lines 335–344), energy and
distance totals initialized to 0 and folded over the child statistics, and
the vendor prefix stripped from the activity kind.  A well-formed element
always yields a row. -/
def parse_workout (u : Int) (e : WorkoutElem) : Option WorkoutRow :=
  let start_date := parseDateOpt u e.startDate
  let end_date := parseDateOpt u e.endDate
  let duration_minutes := (parseFloat e.durationAttr).getD (.finite 0)
  let totals := e.childStats.foldl statStep (.finite 0, .finite 0)
  some ⟨e.workoutActivityType.replace "HKWorkoutActivityType" "", start_date, end_date,
    duration_minutes, totals.1, totals.2⟩

theorem statFold_no_match (l : List (String × String))
    (h : ∀ p ∈ l,
      p.1 ≠ "HKQuantityTypeIdentifierActiveEnergyBurned" ∧
      p.1 ≠ "HKQuantityTypeIdentifierDistanceWalkingRunning" ∧
      p.1 ≠ "HKQuantityTypeIdentifierDistanceCycling")
    (acc : PyFloat × PyFloat) : l.foldl statStep acc = acc := by
  induction l generalizing acc with
  | nil => rfl
  | cons a t ih =>
    have ha := h a (by simp)
    rw [List.foldl_cons]
    have hstep : statStep acc a = acc := by
      rw [statStep, if_neg ha.1, if_neg ha.2.1, if_neg ha.2.2]
    rw [hstep]
    exact ih (fun p hp => h p (by simp [hp])) acc

/-- C7: energy and distance of a workout come only from nested statistic
children of the three matched kinds; a workout none of whose children match
still yields a row, with `total_energy_burned = 0` and
`total_distance_km = 0` — neither an error nor a missing row. -/
theorem workout_no_matching_stats_zero (u : Int) (e : WorkoutElem)
    (h : ∀ p ∈ e.childStats,
      p.1 ≠ "HKQuantityTypeIdentifierActiveEnergyBurned" ∧
      p.1 ≠ "HKQuantityTypeIdentifierDistanceWalkingRunning" ∧
      p.1 ≠ "HKQuantityTypeIdentifierDistanceCycling") :
    ∃ w, parse_workout u e = some w ∧
      w.total_energy_burned = PyFloat.finite 0 ∧ w.total_distance_km = PyFloat.finite 0 := by
  unfold parse_workout
  rw [statFold_no_match e.childStats h]
  exact ⟨_, rfl, rfl, rfl⟩

theorem workout_no_matching_stats_zero_witness :
    ∃ w, parse_workout (-420)
      ⟨"HKWorkoutActivityTypeYoga", some (72584, -420), some (76184, -420), "60", "min",
        [("HKQuantityTypeIdentifierHeartRate", "101")]⟩ = some w ∧
      w.total_energy_burned = PyFloat.finite 0 ∧ w.total_distance_km = PyFloat.finite 0 :=
  workout_no_matching_stats_zero (-420) _ (by decide)

/-! ## Python `round(x, 1)`

`get_sleep_data` reports every sleep quantity through `round(x, 1)`:
round-half-to-even to one decimal place, modelled exactly on rationals
(the concrete values in the claims are exactly representable binary
fractions, where `round` on `float` coincides with the exact rule). -/

def roundHalfEven (q : ℚ) : Int :=
  if q - ⌊q⌋ < 1 / 2 then ⌊q⌋
  else if q - ⌊q⌋ > 1 / 2 then ⌊q⌋ + 1
  else if ⌊q⌋ % 2 = 0 then ⌊q⌋ else ⌊q⌋ + 1

def pyRound1 (q : ℚ) : ℚ := (roundHalfEven (q * 10) : ℚ) / 10

theorem roundHalfEven_intCast (k : Int) : roundHalfEven (k : ℚ) = k := by
  unfold roundHalfEven
  rw [Int.floor_intCast]
  norm_num

/-- Multiples of one tenth are fixed points of `round(x, 1)`. -/
theorem pyRound1_tenths (k : Int) : pyRound1 ((k : ℚ) / 10) = (k : ℚ) / 10 := by
  unfold pyRound1
  have h : ((k : ℚ) / 10) * 10 = (k : ℚ) := by field_simp
  rw [h, roundHalfEven_intCast]

/-- `round(7.25, 1) = 7.2` (tie broken to the even decimal). -/
theorem pyRound1_sevenQuarter : pyRound1 (29 / 4 : ℚ) = 36 / 5 := by
  unfold pyRound1 roundHalfEven
  have h : (29 / 4 : ℚ) * 10 = 145 / 2 := by norm_num
  have hf : ⌊(145 / 2 : ℚ)⌋ = 72 := by
    rw [Int.floor_eq_iff] <;> norm_num
  rw [h, hf]
  norm_num

/-! ## `_parse_sleep_record` (lines 396–474) and the per-day sleep profile
(`HealthDataService.get_sleep_data`, lines 299–393)

A sleep category element carries its `value` vocabulary string and the
structural timestamps.  Stored rows re-derive their duration from the stored
(aware) timestamps exactly as lines 408–416 do via `fromisoformat`; since
both endpoints are stored aware, the difference is the instant difference. -/

structure SleepSrcElem where
  rtype : String
  value : String
  sourceName : String
  startDate : Option (Int × Int)
  endDate : Option (Int × Int)
  creationDate : Option (Int × Int)
deriving DecidableEq, Repr

structure SleepRow where
  record_type : String
  value : ℚ
  unit : String
  start_date : Option AwareDT
  end_date : Option AwareDT
  creation_date : Option AwareDT
  source_name : String
  sleep_stage : String
  data_type : String
deriving DecidableEq, Repr

/-- `(end_dt - start_dt).total_seconds() / 3600` (lines 408–416): 0 when an
endpoint is missing or unparseable. -/
def sleepDuration (sd ed : Option AwareDT) : ℚ :=
  match sd, ed with
  | some s, some e => ((e.utcSec - s.utcSec : Int) : ℚ) / 3600
  | _, _ => 0

/-- `stage_map` of lines 450–454 (with the `.get` fallback). -/
def stageMap (v : String) : String :=
  if v = "HKCategoryValueSleepAnalysisAsleepCore" then "Core"
  else if v = "HKCategoryValueSleepAnalysisAsleepREM" then "REM"
  else if v = "HKCategoryValueSleepAnalysisAsleepDeep" then "Deep"
  else v

/-- `AppleHealthParser._parse_sleep_record`: the legacy `InBed` vocabulary
becomes a `total_time_in_bed` row, the three staged vocabularies become
`sleep_stage` rows, and every other sleep value is discarded (lines
468–470). -/
def parse_sleep_record (u : Int) (e : SleepSrcElem) : Option SleepRow :=
  if e.value = "HKCategoryValueSleepAnalysisInBed" then
    let sd := parseDateOpt u e.startDate
    let ed := parseDateOpt u e.endDate
    let cd := parseDateOpt u e.creationDate
    some ⟨e.rtype, sleepDuration sd ed, "hours", sd, ed, cd, e.sourceName,
      "InBed", "total_time_in_bed"⟩
  else if e.value = "HKCategoryValueSleepAnalysisAsleepCore" ∨
      e.value = "HKCategoryValueSleepAnalysisAsleepREM" ∨
      e.value = "HKCategoryValueSleepAnalysisAsleepDeep" then
    let sd := parseDateOpt u e.startDate
    let ed := parseDateOpt u e.endDate
    let cd := parseDateOpt u e.creationDate
    some ⟨e.rtype, sleepDuration sd ed, "hours", sd, ed, cd, e.sourceName,
      stageMap e.value, "sleep_stage"⟩
  else none

/-- One day's accumulating sleep profile (`daily_sleep[date]`,
lines 329–336). -/
structure SleepDayAgg where
  total_sleep_hours : ℚ
  time_in_bed_hours : ℚ
  sleep_core : ℚ
  sleep_rem : ℚ
  sleep_deep : ℚ
  data_source : String
deriving DecidableEq, Repr

/-- One record folded into the day profile (lines 338–350). -/
def sleepStep (p : SleepDayAgg) (r : SleepRow) : SleepDayAgg :=
  if r.data_type = "total_time_in_bed" then
    { p with time_in_bed_hours := p.time_in_bed_hours + r.value, data_source := "iPhone" }
  else if r.data_type = "sleep_stage" then
    if r.sleep_stage = "Core" then
      { p with sleep_core := p.sleep_core + r.value, data_source := "Apple Watch" }
    else if r.sleep_stage = "REM" then
      { p with sleep_rem := p.sleep_rem + r.value, data_source := "Apple Watch" }
    else if r.sleep_stage = "Deep" then
      { p with sleep_deep := p.sleep_deep + r.value, data_source := "Apple Watch" }
    else p
  else p

/-- Lines 352–369: total sleep = sum of the stages for an Apple-Watch day,
time in bed for an iPhone day; every reported quantity goes through
`round(x, 1)`. -/
def sleepFinalize (p : SleepDayAgg) : SleepDayAgg :=
  let total :=
    if p.data_source = "Apple Watch" then p.sleep_core + p.sleep_rem + p.sleep_deep
    else if p.data_source = "iPhone" then p.time_in_bed_hours
    else p.total_sleep_hours
  { total_sleep_hours := pyRound1 total,
    time_in_bed_hours := pyRound1 p.time_in_bed_hours,
    sleep_core := pyRound1 p.sleep_core,
    sleep_rem := pyRound1 p.sleep_rem,
    sleep_deep := pyRound1 p.sleep_deep,
    data_source := p.data_source }

/-- The reported profile of one calendar day whose (query-ordered) sleep
elements are `elems`: parse, fold, finalize. -/
def sleepDayProfile (u : Int) (elems : List SleepSrcElem) : SleepDayAgg :=
  sleepFinalize ((elems.filterMap (parse_sleep_record u)).foldl sleepStep ⟨0, 0, 0, 0, 0, "mixed"⟩)

/-- C9: a sleep element whose value is outside the retained vocabulary
(`InBed`, `AsleepCore`, `AsleepREM`, `AsleepDeep`) is never stored — the
parser emits no row for it — and it contributes to no sleep total: dropping
it changes neither the stored rows nor any day's reported profile. -/
theorem sleep_discarded_vocab (u : Int) (e : SleepSrcElem)
    (h1 : e.value ≠ "HKCategoryValueSleepAnalysisInBed")
    (h2 : e.value ≠ "HKCategoryValueSleepAnalysisAsleepCore")
    (h3 : e.value ≠ "HKCategoryValueSleepAnalysisAsleepREM")
    (h4 : e.value ≠ "HKCategoryValueSleepAnalysisAsleepDeep") :
    parse_sleep_record u e = none ∧
    ∀ others : List SleepSrcElem,
      (others ++ [e]).filterMap (parse_sleep_record u)
        = others.filterMap (parse_sleep_record u) ∧
      sleepDayProfile u (others ++ [e]) = sleepDayProfile u others := by
  have hp : parse_sleep_record u e = none := by
    rw [parse_sleep_record, if_neg h1, if_neg (by simp [h2, h3, h4])]
  refine ⟨hp, fun others => ⟨?_, ?_⟩⟩
  · simp [List.filterMap_append, hp]
  · simp [sleepDayProfile, List.filterMap_append, hp]

theorem sleep_discarded_vocab_witness :
    parse_sleep_record 0
      ⟨"HKCategoryTypeIdentifierSleepAnalysis", "HKCategoryValueSleepAnalysisAwake",
        "Apple Watch", some (3600, 0), some (7200, 0), none⟩ = none :=
  (sleep_discarded_vocab 0 _ (by decide) (by decide) (by decide) (by decide)).1

/-- C4 counterexample: a day whose only sleep record is a legacy `InBed`
interval of D = 7.25 h (26100 s) reports a total of 7.2 h, not exactly D —
`get_sleep_data` rounds every reported amount to one decimal. -/
theorem sleep_legacy_rounding_counterexample :
    sleepDuration (parseDateOpt 0 (some (0, 0))) (parseDateOpt 0 (some (26100, 0))) = 29 / 4 ∧
    (sleepDayProfile 0
        [⟨"HKCategoryTypeIdentifierSleepAnalysis", "HKCategoryValueSleepAnalysisInBed",
          "iPhone", some (0, 0), some (26100, 0), none⟩]).total_sleep_hours = 36 / 5 ∧
    (36 / 5 : ℚ) ≠ 29 / 4 := by
  refine ⟨?_, ?_, by norm_num⟩
  · simp [sleepDuration, parseDateOpt, parse_date_aware, astimezone, replaceTzinfo]
    norm_num
  · simp [sleepDayProfile, parse_sleep_record, sleepStep, sleepFinalize, sleepDuration,
      parseDateOpt, parse_date_aware, astimezone, replaceTzinfo]
    norm_num [show ((26100 : Int) : ℚ) / 3600 = 29 / 4 by norm_num]
    rw [pyRound1_sevenQuarter]

theorem pyRound1_int (n : Int) : pyRound1 (n : ℚ) = (n : ℚ) := by
  have h := pyRound1_tenths (10 * n)
  rw [show (((10 * n : Int)) : ℚ) / 10 = (n : ℚ) by push_cast; ring] at h
  exact h

/-- C4 (amended): a day whose sleep records are a single legacy `InBed`
interval of duration D reports a total sleep amount of `round(D, 1)` —
exactly D whenever D is a whole number of tenths of an hour, but not for
other D (rounding to one decimal is applied to every reported amount); a day
whose sleep records are staged intervals Core = 2 h, REM = 1 h, Deep = 1 h
reports exactly 4 h with the per-stage breakdown (2, 1, 1) preserved. -/
theorem sleep_day_amounts (u : Int) (e c r d : SleepSrcElem) (D : ℚ)
    (hv : e.value = "HKCategoryValueSleepAnalysisInBed")
    (hdur : sleepDuration (parseDateOpt u e.startDate) (parseDateOpt u e.endDate) = D)
    (hc : c.value = "HKCategoryValueSleepAnalysisAsleepCore")
    (hr : r.value = "HKCategoryValueSleepAnalysisAsleepREM")
    (hd : d.value = "HKCategoryValueSleepAnalysisAsleepDeep")
    (hdc : sleepDuration (parseDateOpt u c.startDate) (parseDateOpt u c.endDate) = 2)
    (hdr : sleepDuration (parseDateOpt u r.startDate) (parseDateOpt u r.endDate) = 1)
    (hdd : sleepDuration (parseDateOpt u d.startDate) (parseDateOpt u d.endDate) = 1) :
    (sleepDayProfile u [e]).total_sleep_hours = pyRound1 D ∧
    ((∃ k : Int, D = (k : ℚ) / 10) → (sleepDayProfile u [e]).total_sleep_hours = D) ∧
    (sleepDayProfile u [c, r, d]).total_sleep_hours = 4 ∧
    (sleepDayProfile u [c, r, d]).sleep_core = 2 ∧
    (sleepDayProfile u [c, r, d]).sleep_rem = 1 ∧
    (sleepDayProfile u [c, r, d]).sleep_deep = 1 := by
  have p1 : pyRound1 (1 : ℚ) = 1 := by
    have h := pyRound1_int 1; push_cast at h; exact h
  have p2 : pyRound1 (2 : ℚ) = 2 := by
    have h := pyRound1_int 2; push_cast at h; exact h
  have p4 : pyRound1 (4 : ℚ) = 4 := by
    have h := pyRound1_int 4; push_cast at h; exact h
  have h1 : (sleepDayProfile u [e]).total_sleep_hours = pyRound1 D := by
    simp [sleepDayProfile, parse_sleep_record, hv, hdur, sleepStep, sleepFinalize]
  have h2 : sleepDayProfile u [c, r, d] =
      ⟨pyRound1 4, pyRound1 0, pyRound1 2, pyRound1 1, pyRound1 1, "Apple Watch"⟩ := by
    simp [sleepDayProfile, parse_sleep_record, hc, hr, hd, hdc, hdr, hdd, stageMap,
      sleepStep, sleepFinalize]
    norm_num
  refine ⟨h1, ?_, ?_, ?_, ?_, ?_⟩
  · rintro ⟨k, rfl⟩
    rw [h1, pyRound1_tenths]
  · rw [h2]; exact p4
  · rw [h2]; exact p2
  · rw [h2]; exact p1
  · rw [h2]; exact p1

theorem sleep_day_amounts_witness :
    (sleepDayProfile 0
        [⟨"HKCategoryTypeIdentifierSleepAnalysis", "HKCategoryValueSleepAnalysisInBed",
          "iPhone", some (0, 0), some (26100, 0), none⟩]).total_sleep_hours
      = pyRound1 (29 / 4) ∧
    ((∃ k : Int, (29 / 4 : ℚ) = (k : ℚ) / 10) →
      (sleepDayProfile 0
        [⟨"HKCategoryTypeIdentifierSleepAnalysis", "HKCategoryValueSleepAnalysisInBed",
          "iPhone", some (0, 0), some (26100, 0), none⟩]).total_sleep_hours = 29 / 4) ∧
    (sleepDayProfile 0
        [⟨"HKCategoryTypeIdentifierSleepAnalysis", "HKCategoryValueSleepAnalysisAsleepCore",
          "Apple Watch", some (0, 0), some (7200, 0), none⟩,
         ⟨"HKCategoryTypeIdentifierSleepAnalysis", "HKCategoryValueSleepAnalysisAsleepREM",
          "Apple Watch", some (7200, 0), some (10800, 0), none⟩,
         ⟨"HKCategoryTypeIdentifierSleepAnalysis", "HKCategoryValueSleepAnalysisAsleepDeep",
          "Apple Watch", some (10800, 0), some (14400, 0), none⟩]).total_sleep_hours = 4 ∧
    (sleepDayProfile 0
        [⟨"HKCategoryTypeIdentifierSleepAnalysis", "HKCategoryValueSleepAnalysisAsleepCore",
          "Apple Watch", some (0, 0), some (7200, 0), none⟩,
         ⟨"HKCategoryTypeIdentifierSleepAnalysis", "HKCategoryValueSleepAnalysisAsleepREM",
          "Apple Watch", some (7200, 0), some (10800, 0), none⟩,
         ⟨"HKCategoryTypeIdentifierSleepAnalysis", "HKCategoryValueSleepAnalysisAsleepDeep",
          "Apple Watch", some (10800, 0), some (14400, 0), none⟩]).sleep_core = 2 ∧
    (sleepDayProfile 0
        [⟨"HKCategoryTypeIdentifierSleepAnalysis", "HKCategoryValueSleepAnalysisAsleepCore",
          "Apple Watch", some (0, 0), some (7200, 0), none⟩,
         ⟨"HKCategoryTypeIdentifierSleepAnalysis", "HKCategoryValueSleepAnalysisAsleepREM",
          "Apple Watch", some (7200, 0), some (10800, 0), none⟩,
         ⟨"HKCategoryTypeIdentifierSleepAnalysis", "HKCategoryValueSleepAnalysisAsleepDeep",
          "Apple Watch", some (10800, 0), some (14400, 0), none⟩]).sleep_rem = 1 ∧
    (sleepDayProfile 0
        [⟨"HKCategoryTypeIdentifierSleepAnalysis", "HKCategoryValueSleepAnalysisAsleepCore",
          "Apple Watch", some (0, 0), some (7200, 0), none⟩,
         ⟨"HKCategoryTypeIdentifierSleepAnalysis", "HKCategoryValueSleepAnalysisAsleepREM",
          "Apple Watch", some (7200, 0), some (10800, 0), none⟩,
         ⟨"HKCategoryTypeIdentifierSleepAnalysis", "HKCategoryValueSleepAnalysisAsleepDeep",
          "Apple Watch", some (10800, 0), some (14400, 0), none⟩]).sleep_deep = 1 :=
  sleep_day_amounts 0 _ _ _ _ (29 / 4) rfl
    (by norm_num [sleepDuration, parseDateOpt, parse_date_aware, astimezone, replaceTzinfo])
    rfl rfl rfl
    (by norm_num [sleepDuration, parseDateOpt, parse_date_aware, astimezone, replaceTzinfo])
    (by norm_num [sleepDuration, parseDateOpt, parse_date_aware, astimezone, replaceTzinfo])
    (by norm_num [sleepDuration, parseDateOpt, parse_date_aware, astimezone, replaceTzinfo])

/-! ## Stored timestamps, SQLite `DATE()`, and `_generate_daily_summaries`
(lines 578–622)

`_parse_date` stores, for a source timestamp with an offset, the aware
`isoformat` text — naive local fields plus a `±HH:MM` suffix (`aware`); for
a suffix-free source timestamp, the naive `isoformat` text (`naiveTS`); and
on a parse failure the original string (`raw`).

SQLite's `DATE(x)` on such text (per the SQLite date-function
documentation): a timestamp with a timezone suffix is first converted to
UTC, then its calendar date is taken; a suffix-free timestamp is read
as-is; an unparseable string gives `NULL`.  Calendar dates are day numbers:
the date of second `s` is `s.fdiv 86400`. -/

inductive StoredTS where
  | aware (localNaiveSec : Int) (offMin : Int)
  | naiveTS (naiveSec : Int)
  | raw (s : String)
deriving DecidableEq, Repr

/-- The stored text of an `_parse_date` result from the offset branch. -/
def storeParsedDate (d : AwareDT) : StoredTS := .aware d.localNaiveSec d.offMin

/-- `DATE(start_date)` as SQLite computes it (day number; `none` = `NULL`). -/
def sqliteDateDay : StoredTS → Option Int
  | .aware l o => some ((l - o * 60).fdiv 86400)
  | .naiveTS n => some (n.fdiv 86400)
  | .raw _ => none

/-- The local calendar date the stored timestamp's own naive fields denote —
the user-timezone civil date of the record. -/
def localCivilDay : StoredTS → Option Int
  | .aware l _ => some (l.fdiv 86400)
  | .naiveTS n => some (n.fdiv 86400)
  | .raw _ => none

/-- A persisted `health_records` row (the columns the aggregation reads). -/
structure HRRow where
  record_type : String
  value : ℚ
  start_date : StoredTS
deriving DecidableEq, Repr

/-- `SUM(CASE WHEN record_type = kind THEN value END)` over one date group:
`NULL` when no row of that kind is in the group, else the exact sum. -/
def sumCase (rows : List HRRow) (d : Int) (kind : String) : Option ℚ :=
  match (rows.filter fun r =>
      decide (sqliteDateDay r.start_date = some d ∧ r.record_type = kind)).map
        (fun r => r.value) with
  | [] => none
  | v :: vs => some ((v :: vs).sum)

/-- `AVG(CASE WHEN ... THEN value END)` over one date group. -/
def avgCase (rows : List HRRow) (d : Int) (kind : String) : Option ℚ :=
  match (rows.filter fun r =>
      decide (sqliteDateDay r.start_date = some d ∧ r.record_type = kind)).map
        (fun r => r.value) with
  | [] => none
  | v :: vs => some ((v :: vs).sum / ((v :: vs).length : ℚ))

/-- `MIN(CASE WHEN ... THEN value END)` over one date group. -/
def minCase (rows : List HRRow) (d : Int) (kind : String) : Option ℚ :=
  match (rows.filter fun r =>
      decide (sqliteDateDay r.start_date = some d ∧ r.record_type = kind)).map
        (fun r => r.value) with
  | [] => none
  | v :: vs => some (vs.foldl min v)

/-- `MAX(CASE WHEN ... THEN value END)` over one date group. -/
def maxCase (rows : List HRRow) (d : Int) (kind : String) : Option ℚ :=
  match (rows.filter fun r =>
      decide (sqliteDateDay r.start_date = some d ∧ r.record_type = kind)).map
        (fun r => r.value) with
  | [] => none
  | v :: vs => some (vs.foldl max v)

structure DailySummaryRow where
  date : Int
  steps : Option ℚ
  active_energy_burned : Option ℚ
  basal_energy_burned : Option ℚ
  exercise_time_minutes : Option ℚ
  distance_walking_km : Option ℚ
  avg_heart_rate : Option ℚ
  min_heart_rate : Option ℚ
  max_heart_rate : Option ℚ
  body_mass_kg : Option ℚ
  body_mass_index : Option ℚ
  body_fat_percentage : Option ℚ
deriving DecidableEq, Repr

/-- The `SELECT` list of the aggregation query (lines 589–620) for one date
group. -/
def dailySummaryRow (rows : List HRRow) (d : Int) : DailySummaryRow :=
  ⟨d,
    sumCase rows d "HKQuantityTypeIdentifierStepCount",
    sumCase rows d "HKQuantityTypeIdentifierActiveEnergyBurned",
    sumCase rows d "HKQuantityTypeIdentifierBasalEnergyBurned",
    sumCase rows d "HKQuantityTypeIdentifierAppleExerciseTime",
    sumCase rows d "HKQuantityTypeIdentifierDistanceWalkingRunning",
    avgCase rows d "HKQuantityTypeIdentifierHeartRate",
    minCase rows d "HKQuantityTypeIdentifierHeartRate",
    maxCase rows d "HKQuantityTypeIdentifierHeartRate",
    avgCase rows d "HKQuantityTypeIdentifierBodyMass",
    avgCase rows d "HKQuantityTypeIdentifierBodyMassIndex",
    avgCase rows d "HKQuantityTypeIdentifierBodyFatPercentage"⟩

/-- `_generate_daily_summaries`: `WHERE DATE(start_date) IS NOT NULL GROUP
BY DATE(start_date)` — one summary row per distinct non-`NULL`
`DATE(start_date)` value (the `ORDER BY` affects only insertion order, not
the set of rows). -/
def generate_daily_summaries (rows : List HRRow) : List DailySummaryRow :=
  ((rows.filterMap fun r => sqliteDateDay r.start_date).dedup).map (dailySummaryRow rows)

/-- C1: with the run timezone UTC−7 (offset −420), the single retained
record whose source timestamp is `2023-09-11 20:09:44 -0700` (naive second
72584 of day 0) is stored as the aware local text `aware 72584 (-420)`; its
user-local calendar date is day 0, yet the generated summary table has
exactly one row, keyed to day 1 — the UTC date of the stored timestamp.  A
summary row exists for a date on which no retained record falls locally, and
no row exists for the record's local date: the existence invariant fails. -/
theorem daily_summary_existence_failing :
    (generate_daily_summaries
        [⟨"HKQuantityTypeIdentifierStepCount", 1000,
          storeParsedDate (parse_date_aware (-420) 72584 (-420))⟩]).map
      (fun row => row.date) = [1] ∧
    localCivilDay (storeParsedDate (parse_date_aware (-420) 72584 (-420))) = some 0 ∧
    ¬ (∃ r ∈ ([⟨"HKQuantityTypeIdentifierStepCount", 1000,
          storeParsedDate (parse_date_aware (-420) 72584 (-420))⟩] : List HRRow),
        localCivilDay r.start_date = some 1) ∧
    ¬ (∃ row ∈ generate_daily_summaries
        [⟨"HKQuantityTypeIdentifierStepCount", 1000,
          storeParsedDate (parse_date_aware (-420) 72584 (-420))⟩], row.date = 0) := by
  refine ⟨by decide, by decide, by decide, by decide⟩

/-- C2: same failing input as the existence invariant.  The one summary row
is keyed to day 1 and carries `steps = 1000` (all other columns `NULL`), yet
the set of records of kind step-count whose *local* date is day 1 is empty —
for the local date carrying the row, the steps column should then be `NULL`
per the claim, but it is the sum of the UTC-dated group instead. -/
theorem daily_summary_sums_failing :
    generate_daily_summaries
        [⟨"HKQuantityTypeIdentifierStepCount", 1000,
          storeParsedDate (parse_date_aware (-420) 72584 (-420))⟩]
      = [⟨1, some 1000, none, none, none, none, none, none, none, none, none, none⟩] ∧
    ([⟨"HKQuantityTypeIdentifierStepCount", 1000,
          storeParsedDate (parse_date_aware (-420) 72584 (-420))⟩] : List HRRow).filter
        (fun r => decide (localCivilDay r.start_date = some 1 ∧
          r.record_type = "HKQuantityTypeIdentifierStepCount")) = [] := by
  constructor
  · have hd : sqliteDateDay (storeParsedDate (parse_date_aware (-420) 72584 (-420)))
        = some 1 := by decide
    simp only [generate_daily_summaries, List.filterMap_cons, List.filterMap_nil, hd,
      List.dedup_cons_of_not_mem, List.not_mem_nil, not_false_iff, List.dedup_nil,
      List.map_cons, List.map_nil, List.cons.injEq, and_true]
    rw [dailySummaryRow]
    simp only [DailySummaryRow.mk.injEq, sumCase, avgCase, minCase, maxCase,
      List.filter_cons, List.filter_nil, hd]
    simp
  · decide
